import Mathlib

/-!
Shallow embedding of the authentication provider registry, session resolver
and sign-in request coordination of the repository:

* `AuthenticationServiceImpl`  (packages/authentication/src/browser/authentication-service.ts)
* `AuthenticationExtImpl`      (the plugin-host bridge file)

JavaScript `Map`s and plain objects keyed by strings are embedded as
association lists (`AList α`) in insertion order: `Map.set` replaces the
first binding in place when the key is present and appends otherwise,
`Map.delete` / `delete obj[k]` removes the binding, `Object.keys` is
`List.map Prod.fst`.  Keys of a JS `Map`/object are unique by construction;
theorems about arbitrary states carry a `Nodup` hypothesis where that matters.

Thrown `Error`s are embedded as `Except String` results carrying the exact
message string of the source; `void` methods that cannot throw are total
functions.  Event emissions, menu/badge disposals and provider calls are
recorded in explicit effect traces.
-/

namespace TheiaAuth

/-- Association list standing for a JS `Map` / plain object keyed by strings. -/
abbrev AList (α : Type) : Type := List (String × α)

/-- JS `Map.get` / `obj[k]`: first binding of the key, if any. -/
def alistGet {α : Type} (m : AList α) (k : String) : Option α :=
  match m with
  | [] => none
  | (k', v) :: rest => if k' = k then some v else alistGet rest k

/-- JS `Map.set` / `obj[k] = v`: replace the first binding in place, or append. -/
def alistSet {α : Type} (m : AList α) (k : String) (v : α) : AList α :=
  match m with
  | [] => [(k, v)]
  | (k', v') :: rest => if k' = k then (k, v) :: rest else (k', v') :: alistSet rest k v

/-- JS `Map.delete` / `delete obj[k]`: drop the binding (keys are unique in JS). -/
def alistDelete {α : Type} (m : AList α) (k : String) : AList α :=
  m.filter (fun e => e.1 ≠ k)

/-- JS `Map.has`. -/
def alistHas {α : Type} (m : AList α) (k : String) : Bool :=
  (alistGet m k).isSome

/-- String comparison used by the JS default `Array.prototype.sort` on
strings: lexicographic comparison of the character sequences.  It is stated
on `String.data` (the list of characters) so that it is a structurally
decidable total order. -/
def scopeLe (a b : String) : Prop := a.data ≤ b.data

instance : DecidableRel scopeLe := fun a b => (inferInstance : Decidable (a.data ≤ b.data))

instance : IsTotal String scopeLe := ⟨fun a b => le_total a.data b.data⟩

instance : IsTrans String scopeLe := ⟨fun _ _ _ => le_trans⟩

instance : IsAntisymm String scopeLe := ⟨fun _ _ h1 h2 => String.toList_inj.mp (le_antisymm h1 h2)⟩

/-- `scopes.sort()` — JS default sort on an array of strings: the unique
reordering that is sorted for the lexicographic string order.  (The default
JS comparator sorts strings lexicographically; since the order is total and
antisymmetric, every correct sorting algorithm produces this same list.) -/
def sortScopes (scopes : List String) : List String :=
  List.insertionSort scopeLe scopes

/-- `scopes.sort().join(sep)`. -/
def jsSortJoin (sep : String) (scopes : List String) : String :=
  String.intercalate sep (sortScopes scopes)

/-- Canonical scope key of the browser-side service: `scopes.sort().join('')`
(lines 214 and 255 of authentication-service.ts). -/
def hostScopeKey (scopes : List String) : String :=
  jsSortJoin "" scopes

/-- Canonical scope key of the plugin-side resolver: `scopes.sort().join(' ')`
(lines 68 and 85 of the plugin bridge file). -/
def extScopeKey (scopes : List String) : String :=
  jsSortJoin " " scopes

/-- `AuthenticationSession` (authentication-service.ts, lines 22-30); the
nested `account` literal is flattened into two fields. -/
structure AuthenticationSession where
  id : String
  accessToken : String
  accountDisplayName : String
  accountId : String
  scopes : List String
deriving Repr, DecidableEq

/-- `AuthenticationSessionsChangeEvent` (authentication-service.ts, lines 32-36).
All three fields have array type in the source, so each is truthy as a JS
value even when empty. -/
structure AuthenticationSessionsChangeEvent where
  added : List String
  removed : List String
  changed : List String
deriving Repr, DecidableEq

/-- `SessionRequest` (authentication-service.ts, lines 84-87); the opaque
`Disposable` handles are embedded as numeric tags. -/
structure SessionRequest where
  disposables : List Nat
  requestingExtensionIds : List String
deriving Repr, DecidableEq

/-- `SessionRequestInfo` (authentication-service.ts, lines 89-91): a plain
object mapping a canonical scope key to a `SessionRequest`. -/
abbrev SessionRequestInfo : Type := AList SessionRequest

/-- A browser-side `AuthenticationProvider` (authentication-service.ts,
lines 38-58).  The behavioural members are embedded as data: `sessions` is
the list `getSessions()` resolves to, `hasSessionsFlag` is the value
`hasSessions()` returns, and `loginFn scopes` is the session
`login(scopes)` resolves to.  `dispose`, `updateSessionItems`, `logout` and
`signOut` are third-party effects and are recorded in effect traces by the
service operations below. -/
structure AuthenticationProvider where
  id : String
  supportsMultipleAccounts : Bool
  displayName : String
  hasSessionsFlag : Bool
  sessions : List AuthenticationSession
  loginFn : List String → AuthenticationSession

/-- Observable side effects of the browser-side service: emitter firings,
disposals, and calls into the provider. -/
inductive HostEffect where
  | firedDidRegister (id : String)
  | firedDidUnregister (id : String)
  | firedDidChangeSessions (providerId : String) (event : AuthenticationSessionsChangeEvent)
  | disposedProvider (id : String)
  | disposedHandle (handle : Nat)
  | calledUpdateSessionItems (providerId : String) (event : AuthenticationSessionsChangeEvent)
deriving Repr, DecidableEq

/-- The mutable fields of `AuthenticationServiceImpl`
(authentication-service.ts, lines 94-101).  The `Disposable` menu/badge
handles are embedded as optional numeric tags; the emitters themselves are
stateless and their firings are recorded in the effect traces. -/
structure AuthenticationServiceImpl where
  placeholderMenuItem : Option Nat
  noAccountsMenuItem : Option Nat
  signInRequestItems : AList SessionRequestInfo
  badgeDisposable : Option Nat
  authenticationProviders : AList AuthenticationProvider

namespace AuthenticationServiceImpl

/-- `getProviderIds` (lines 124-130): collects `provider.id` over the map in
insertion order. -/
def getProviderIds (st : AuthenticationServiceImpl) : List String :=
  st.authenticationProviders.map (fun e => e.2.id)

/-- `isAuthenticationProviderRegistered` (lines 132-134). -/
def isAuthenticationProviderRegistered (st : AuthenticationServiceImpl) (id : String) : Bool :=
  alistHas st.authenticationProviders id

/-- `updateAccountsMenuItem` (lines 136-157): computes whether any provider
has sessions; disposes the no-accounts menu item when one does; the branch
that would create the item is commented out in the source, so nothing is
ever created. -/
def updateAccountsMenuItem (st : AuthenticationServiceImpl) :
    AuthenticationServiceImpl × List HostEffect :=
  let hasSession := st.authenticationProviders.any (fun e => e.2.hasSessionsFlag)
  match st.noAccountsMenuItem with
  | some h =>
      if hasSession then
        ({ st with noAccountsMenuItem := none }, [HostEffect.disposedHandle h])
      else (st, [])
  | none => (st, [])

/-- `registerAuthenticationProvider` (lines 159-169): stores the provider
under the id — with no duplicate check, so an existing binding is
overwritten — fires the registration emitter, disposes the placeholder menu
item if present, and updates the accounts menu item. -/
def registerAuthenticationProvider (st : AuthenticationServiceImpl) (id : String)
    (authenticationProvider : AuthenticationProvider) :
    AuthenticationServiceImpl × List HostEffect :=
  let st1 := { st with
    authenticationProviders := alistSet st.authenticationProviders id authenticationProvider }
  let fireEff := [HostEffect.firedDidRegister id]
  let (st2, placeholderEff) :=
    match st1.placeholderMenuItem with
    | some h => ({ st1 with placeholderMenuItem := none }, [HostEffect.disposedHandle h])
    | none => (st1, [])
  let (st3, menuEff) := updateAccountsMenuItem st2
  (st3, fireEff ++ placeholderEff ++ menuEff)

/-- `unregisterAuthenticationProvider` (lines 171-189): when the id is
present, disposes the provider, removes it from the registry, fires the
unregistration emitter and updates the accounts menu item; the trailing
empty-registry branch is commented out in the source.  The pending
sign-in request map is not touched. -/
def unregisterAuthenticationProvider (st : AuthenticationServiceImpl) (id : String) :
    AuthenticationServiceImpl × List HostEffect :=
  match alistGet st.authenticationProviders id with
  | some _provider =>
      let st1 := { st with
        authenticationProviders := alistDelete st.authenticationProviders id }
      let (st2, menuEff) := updateAccountsMenuItem st1
      (st2, [HostEffect.disposedProvider id, HostEffect.firedDidUnregister id] ++ menuEff)
  | none => (st, [])

/-- The match test of line 214:
`sessions.some(session => session.scopes.sort().join('') === requestedScopes)`. -/
def sessionMatches (sessions : List AuthenticationSession) (requestedScopes : String) : Bool :=
  sessions.any (fun session => hostScopeKey session.scopes = requestedScopes)

/-- One iteration step of the `Object.keys(existingRequestsForProvider).forEach`
loop of `updateNewSessionRequests` (lines 213-229), made explicit as a
recursion over the snapshot of keys.  The accumulators are the mutated
`existingRequestsForProvider` object (`reqs`), the `_signInRequestItems`
map (`items`), the `changed` flag and the disposal trace. -/
def reconcileLoop (providerId : String) (sessions : List AuthenticationSession) :
    List String → SessionRequestInfo → AList SessionRequestInfo → Bool → List HostEffect →
    SessionRequestInfo × AList SessionRequestInfo × Bool × List HostEffect
  | [], reqs, items, changed, eff => (reqs, items, changed, eff)
  | requestedScopes :: rest, reqs, items, changed, eff =>
      if sessionMatches sessions requestedScopes then
        -- Request has been completed
        let disposeEff :=
          match alistGet reqs requestedScopes with
          | some sessionRequest => sessionRequest.disposables.map HostEffect.disposedHandle
          | none => []
        let reqs' := alistDelete reqs requestedScopes
        let items' :=
          if reqs'.isEmpty then alistDelete items providerId
          else alistSet items providerId reqs'
        reconcileLoop providerId sessions rest reqs' items' true (eff ++ disposeEff)
      else
        reconcileLoop providerId sessions rest reqs items changed eff

/-- `updateNewSessionRequests` (lines 204-249): fetches the provider's
current sessions, retires every pending request whose canonical key is the
canonical key of some current session (disposing its handles), and — when
something changed and the request map became empty — disposes the badge.
The badge-recomputation branch for a non-empty map is commented out in the
source. -/
def updateNewSessionRequests (st : AuthenticationServiceImpl)
    (provider : AuthenticationProvider) :
    AuthenticationServiceImpl × List HostEffect :=
  match alistGet st.signInRequestItems provider.id with
  | none => (st, [])
  | some existingRequestsForProvider =>
      let sessions := provider.sessions
      let keys := existingRequestsForProvider.map Prod.fst
      let (_, items', changed, eff) :=
        reconcileLoop provider.id sessions keys existingRequestsForProvider
          st.signInRequestItems false []
      let st1 := { st with signInRequestItems := items' }
      if changed then
        if st1.signInRequestItems.isEmpty then
          match st1.badgeDisposable with
          | some b =>
              ({ st1 with badgeDisposable := none }, eff ++ [HostEffect.disposedHandle b])
          | none => ({ st1 with badgeDisposable := none }, eff)
        else (st1, eff)
      else (st1, eff)

/-- `sessionsUpdate` (lines 191-202): fires the change emitter, and when the
provider is registered forwards the event to it, updates the accounts menu
item and reconciles pending requests.  The guard `if (event.added)` tests a
value of array type, which is truthy for every array (including the empty
one), so reconciliation always runs. -/
def sessionsUpdate (st : AuthenticationServiceImpl) (id : String)
    (event : AuthenticationSessionsChangeEvent) :
    AuthenticationServiceImpl × List HostEffect :=
  let fireEff := [HostEffect.firedDidChangeSessions id event]
  match alistGet st.authenticationProviders id with
  | some provider =>
      let updEff := [HostEffect.calledUpdateSessionItems id event]
      let (st1, menuEff) := updateAccountsMenuItem st
      let (st2, reconcileEff) := updateNewSessionRequests st1 provider
      (st2, fireEff ++ updEff ++ menuEff ++ reconcileEff)
  | none => (st, fireEff)

/-- `requestNewSession` (lines 251-324): when the provider is registered,
computes the canonical scope key and returns early if this extension
already has a request recorded for it.  Everything after the dedup check —
the menu item, the sign-in command, the insertion into
`_signInRequestItems` and the badge update (lines 264-322) — is commented
out in the source, so the function returns without modifying any field. -/
def requestNewSession (st : AuthenticationServiceImpl) (providerId : String)
    (scopes : List String) (extensionId : String) (extensionName : String) :
    AuthenticationServiceImpl :=
  match alistGet st.authenticationProviders providerId with
  | some _provider =>
      let providerRequests := alistGet st.signInRequestItems providerId
      let scopesList := hostScopeKey scopes
      let extensionHasExistingRequest :=
        match providerRequests with
        | some reqs =>
            match alistGet reqs scopesList with
            | some req => req.requestingExtensionIds.contains extensionId
            | none => false
        | none => false
      if extensionHasExistingRequest then st
      else st
  | none => st

/-- The error message thrown by `getDisplayName`, `supportsMultipleAccounts`,
`getSessions`, `login`, `logout` and `signOutOfAccount` for an unregistered
id (authentication-service.ts, lines 330, 339, 348, 357, 366, 375). -/
def noProviderMsg (id : String) : String :=
  "No authentication provider \x27" ++ id ++ "\x27 is currently registered."

/-- `getDisplayName` (lines 325-332). -/
def getDisplayName (st : AuthenticationServiceImpl) (id : String) : Except String String :=
  match alistGet st.authenticationProviders id with
  | some authProvider => Except.ok authProvider.displayName
  | none => Except.error (noProviderMsg id)

/-- `supportsMultipleAccounts` (lines 334-341). -/
def supportsMultipleAccountsOf (st : AuthenticationServiceImpl) (id : String) :
    Except String Bool :=
  match alistGet st.authenticationProviders id with
  | some authProvider => Except.ok authProvider.supportsMultipleAccounts
  | none => Except.error (noProviderMsg id)

/-- `getSessions` (lines 343-350). -/
def getSessions (st : AuthenticationServiceImpl) (id : String) :
    Except String (List AuthenticationSession) :=
  match alistGet st.authenticationProviders id with
  | some authProvider => Except.ok authProvider.sessions
  | none => Except.error (noProviderMsg id)

/-- `login` (lines 352-359): delegates to the provider's `login`. -/
def login (st : AuthenticationServiceImpl) (id : String) (scopes : List String) :
    Except String AuthenticationSession :=
  match alistGet st.authenticationProviders id with
  | some authProvider => Except.ok (authProvider.loginFn scopes)
  | none => Except.error (noProviderMsg id)

/-- `logout` (lines 361-368): delegates to the provider's `logout`, an
external effect with no result. -/
def logout (st : AuthenticationServiceImpl) (id : String) (sessionId : String) :
    Except String Unit :=
  match alistGet st.authenticationProviders id with
  | some _authProvider => Except.ok ()
  | none => Except.error (noProviderMsg id)

/-- `signOutOfAccount` (lines 370-377): delegates to the provider's
`signOut`, an external effect with no result. -/
def signOutOfAccount (st : AuthenticationServiceImpl) (id : String) (accountName : String) :
    Except String Unit :=
  match alistGet st.authenticationProviders id with
  | some _authProvider => Except.ok ()
  | none => Except.error (noProviderMsg id)

end AuthenticationServiceImpl

/-- A plugin-side `theia.AuthenticationProvider`, embedded as data the same
way as the browser-side one: `sessions` is what `getSessions()` resolves to
and `loginFn scopes` is what `login(scopes)` resolves to. -/
structure ExtAuthenticationProvider where
  id : String
  displayName : String
  supportsMultipleAccounts : Bool
  sessions : List AuthenticationSession
  loginFn : List String → AuthenticationSession

/-- The `model` part of the `InternalPlugin` passed to `getSession`:
`model.id`, `model.name` and the possibly missing `model.displayName`. -/
structure PluginModel where
  id : String
  name : String
  displayName : Option String
deriving Repr, DecidableEq

/-- `requestingExtension.model.displayName || requestingExtension.model.name`
(plugin bridge, line 78): JS `||` falls through on `undefined` and on the
empty string. -/
def pluginExtensionName (m : PluginModel) : String :=
  match m.displayName with
  | some d => if d = "" then m.name else d
  | none => m.name

/-- `requestingExtension.model.id.toLowerCase()` (plugin bridge, line 79). -/
def jsToLowerCase (s : String) : String :=
  String.mk (s.data.map Char.toLower)

/-- Calls issued by `AuthenticationExtImpl.getSession` to the main side and
to the provider, in order. -/
inductive ProxyCall where
  | getSessionRemote (providerId : String) (scopes : List String)
      (extensionId extensionName : String)
  | getSessionsPrompt (providerId accountName providerDisplayName
      extensionId extensionName : String)
  | selectSession (providerId providerDisplayName extensionId extensionName : String)
      (sessions : List AuthenticationSession) (scopes : List String)
      (clearSessionPreference : Bool)
  | loginPrompt (providerDisplayName extensionName : String)
  | providerLogin (scopes : List String)
  | setTrustedExtension (providerId accountDisplayName extensionId extensionName : String)
  | requestNewSession (providerId : String) (scopes : List String)
      (extensionId extensionName : String)
deriving Repr, DecidableEq

/-- Responses of the main-side proxy collaborators consumed by `getSession`:
the consent prompts, the account selection, and the spec-modelled remote
registry. -/
structure MainProxyBehavior where
  getSessionsPromptResult : Bool
  loginPromptResult : Bool
  selectSessionResult : AuthenticationSession
  mainProviderIds : List String
  mainSessionResult : Option AuthenticationSession

/-- `theia.AuthenticationGetSessionOptions` as used by `getSession`. -/
structure AuthenticationGetSessionOptions where
  createIfNone : Bool
  clearSessionPreference : Bool
deriving Repr, DecidableEq

/-- The message of the error thrown on consent denial (plugin bridge,
lines 95 and 106). -/
def consentErrorMsg : String := "User did not consent to login."

/-- Modelled from the spec: the main-side `$getSession` handler
(`AuthenticationMainImpl`) is not among the source files; per §4.2 of the
spec the resolver first looks the provider up and "fails with
`UnknownProviderError` if absent".  When the provider is registered on the
main side the outcome is taken from the behaviour record. -/
def mainGetSession (behavior : MainProxyBehavior) (providerId : String) :
    Except String (Option AuthenticationSession) :=
  if providerId ∈ behavior.mainProviderIds then Except.ok behavior.mainSessionResult
  else Except.error (AuthenticationServiceImpl.noProviderMsg providerId)

/-- The state of `AuthenticationExtImpl`: its provider map.  (The two
emitters are stateless; the session-change listener installed by
registration only forwards provider events to the main side.) -/
structure AuthenticationExtImpl where
  authenticationProviders : AList ExtAuthenticationProvider

namespace AuthenticationExtImpl

/-- `getProviderIds`-style getter `providerIds` (plugin bridge, lines 45-52). -/
def providerIds (st : AuthenticationExtImpl) : List String :=
  st.authenticationProviders.map (fun e => e.2.id)

/-- `getSession` (plugin bridge, lines 73-117).  `scopes.sort()` on line 85
sorts the caller's array in place, so every later use of `scopes`
(`$selectSession`, `provider.login`, `$requestNewSession`) receives the
sorted list.  The result is the value resolved or the message of the error
thrown, paired with the trace of calls made to the main side and to the
provider. -/
def getSession (st : AuthenticationExtImpl) (behavior : MainProxyBehavior)
    (requestingExtension : PluginModel) (providerId : String) (scopes : List String)
    (options : AuthenticationGetSessionOptions) :
    Except String (Option AuthenticationSession) × List ProxyCall :=
  let extensionName := pluginExtensionName requestingExtension
  let extensionId := jsToLowerCase requestingExtension.id
  match alistGet st.authenticationProviders providerId with
  | none =>
      (mainGetSession behavior providerId,
       [ProxyCall.getSessionRemote providerId scopes extensionId extensionName])
  | some provider =>
      let sortedScopes := sortScopes scopes
      let orderedScopes := String.intercalate " " sortedScopes
      let sessions := provider.sessions.filter
        (fun s => extScopeKey s.scopes = orderedScopes)
      match sessions with
      | session :: _ =>
          if !provider.supportsMultipleAccounts then
            let calls := [ProxyCall.getSessionsPrompt providerId session.accountDisplayName
              provider.displayName extensionId extensionName]
            if behavior.getSessionsPromptResult then (Except.ok (some session), calls)
            else (Except.error consentErrorMsg, calls)
          else
            let selected := behavior.selectSessionResult
            (Except.ok (sessions.find? (fun s => s.id = selected.id)),
             [ProxyCall.selectSession providerId provider.displayName extensionId
               extensionName sessions sortedScopes options.clearSessionPreference])
      | [] =>
          if options.createIfNone then
            if behavior.loginPromptResult then
              let session := provider.loginFn sortedScopes
              (Except.ok (some session),
               [ProxyCall.loginPrompt provider.displayName extensionName,
                ProxyCall.providerLogin sortedScopes,
                ProxyCall.setTrustedExtension providerId session.accountDisplayName
                  extensionId extensionName])
            else
              (Except.error consentErrorMsg,
               [ProxyCall.loginPrompt provider.displayName extensionName])
          else
            (Except.ok none,
             [ProxyCall.requestNewSession providerId sortedScopes extensionId extensionName])

/-- Notifications sent to the main side by the plugin-side registry. -/
inductive ExtEffect where
  | registeredWithMain (id : String) (displayName : String) (supportsMultipleAccounts : Bool)
deriving Repr, DecidableEq

/-- The message of the error thrown by `registerAuthenticationProvider` for
a duplicate id (plugin bridge, line 130). -/
def dupProviderMsg (id : String) : String :=
  "An authentication provider with id \x27" ++ id ++ "\x27 is already registered."

/-- `registerAuthenticationProvider` (plugin bridge, lines 128-146): throws
when the id is already bound — before any mutation, so the original binding
remains — otherwise stores the provider and notifies the main side via
`$registerAuthenticationProvider`.  The installed session-change listener
and the returned `Disposable` only act on later, separate events and are
not part of this state transition. -/
def registerAuthenticationProvider (st : AuthenticationExtImpl)
    (provider : ExtAuthenticationProvider) :
    Except String (AuthenticationExtImpl × List ExtEffect) :=
  match alistGet st.authenticationProviders provider.id with
  | some _ => Except.error (dupProviderMsg provider.id)
  | none =>
      Except.ok
        ({ st with authenticationProviders :=
            alistSet st.authenticationProviders provider.id provider },
         [ExtEffect.registeredWithMain provider.id provider.displayName
            provider.supportsMultipleAccounts])

end AuthenticationExtImpl

/-- Shorthand for the `_signInRequestItems` value produced by the
reconciliation loop: unchanged while nothing matched, otherwise the entry
for `pid` is replaced by the surviving requests or deleted when none
survive. -/
def mkItems (items0 : AList SessionRequestInfo) (pid : String)
    (reqs : SessionRequestInfo) (changed : Bool) : AList SessionRequestInfo :=
  if changed then
    (if reqs.isEmpty then alistDelete items0 pid else alistSet items0 pid reqs)
  else items0

/-- The disposal trace contributed by a list of retired requests: each
request contributes each of its handles exactly once, in order. -/
def disposalTrace (removed : SessionRequestInfo) : List HostEffect :=
  removed.flatMap (fun e => e.2.disposables.map HostEffect.disposedHandle)

/-- A concrete session used by the evaluation theorems. -/
def sampleSession (sid : String) (scopes : List String) : AuthenticationSession :=
  { id := sid, accessToken := "tok", accountDisplayName := "acct",
    accountId := "acct-id", scopes := scopes }

/-- A concrete browser-side provider used by the evaluation theorems. -/
def sampleHostProvider (pid name : String) (sessions : List AuthenticationSession) :
    AuthenticationProvider :=
  { id := pid, supportsMultipleAccounts := false, displayName := name,
    hasSessionsFlag := false, sessions := sessions,
    loginFn := fun scopes => sampleSession "fresh" scopes }

/-- A concrete plugin-side provider used by the evaluation theorems. -/
def sampleExtProvider (pid name : String) (sessions : List AuthenticationSession) :
    ExtAuthenticationProvider :=
  { id := pid, displayName := name, supportsMultipleAccounts := false,
    sessions := sessions, loginFn := fun scopes => sampleSession "fresh" scopes }

/-- The freshly constructed browser-side service: every menu/badge handle
absent, both maps empty (authentication-service.ts, lines 96-101, 114-122). -/
def emptyHostState : AuthenticationServiceImpl :=
  { placeholderMenuItem := none, noAccountsMenuItem := none, signInRequestItems := [],
    badgeDisposable := none, authenticationProviders := [] }

/-- A concrete main-proxy behaviour record for the evaluation theorems. -/
def sampleBehavior (reusePrompt doLoginPrompt : Bool) (mainIds : List String) :
    MainProxyBehavior :=
  { getSessionsPromptResult := reusePrompt, loginPromptResult := doLoginPrompt,
    selectSessionResult := sampleSession "sel" [], mainProviderIds := mainIds,
    mainSessionResult := none }

/-- A concrete requesting plugin for the evaluation theorems. -/
def samplePlugin : PluginModel :=
  { id := "Pub.Ext", name := "ext", displayName := some "Ext One" }

/-- Browser-side service with one provider registered under id `p`. -/
def hostStateWithA : AuthenticationServiceImpl :=
  { emptyHostState with
    authenticationProviders := [("p", sampleHostProvider "p" "A" [])] }

/-- Plugin-side registry with one provider registered under id `p`. -/
def extStateWithA : AuthenticationExtImpl :=
  { authenticationProviders := [("p", sampleExtProvider "p" "A" [])] }

/-- Two pending sign-in requests for provider `p`, with handles 1, 2 and 3. -/
def twoRequestsInfo : SessionRequestInfo :=
  [("a", { disposables := [1], requestingExtensionIds := ["e1"] }),
   ("b", { disposables := [2, 3], requestingExtensionIds := ["e2"] })]

/-- Browser-side service with provider `p` registered and two pending
sign-in requests for it. -/
def hostStateTwoRequests : AuthenticationServiceImpl :=
  { emptyHostState with
    authenticationProviders := [("p", sampleHostProvider "p" "A" [])],
    signInRequestItems := [("p", twoRequestsInfo)] }

/-- Browser-side service with provider `p` owning a current session with
scopes `[a]`, one pending request keyed by that scope, and a badge handle. -/
def hostStatePendingA : AuthenticationServiceImpl :=
  { emptyHostState with
    authenticationProviders := [("p", sampleHostProvider "p" "A" [sampleSession "s1" ["a"]])],
    signInRequestItems := [("p", [("a", { disposables := [7], requestingExtensionIds := ["e1"] })])],
    badgeDisposable := some 9 }

/-- Plugin-side registry whose provider `p` owns a session with scopes
`[repo]`. -/
def extStateWithSession : AuthenticationExtImpl :=
  { authenticationProviders :=
      [("p", sampleExtProvider "p" "A" [sampleSession "s1" ["repo"]])] }

/-! ### Helper lemmas about the association-list operations -/

theorem alistGet_set_self {α : Type} (m : AList α) (k : String) (v : α) :
    alistGet (alistSet m k v) k = some v := by
  induction m with
  | nil => simp [alistSet, alistGet]
  | cons e rest ih =>
      by_cases h : e.1 = k
      · simp [alistSet, alistGet, h]
      · simp [alistSet, alistGet, h, ih]

theorem alistGet_set_ne {α : Type} (m : AList α) (k q : String) (v : α) (h : q ≠ k) :
    alistGet (alistSet m k v) q = alistGet m q := by
  have hk : k ≠ q := Ne.symm h
  induction m with
  | nil => simp [alistSet, alistGet, hk]
  | cons e rest ih =>
      by_cases he : e.1 = k
      · subst he
        simp [alistSet, alistGet, hk]
      · simp only [alistSet, if_neg he]
        by_cases hq : e.1 = q
        · simp [alistGet, hq]
        · simp [alistGet, hq, ih]

theorem alistGet_delete_self {α : Type} (m : AList α) (k : String) :
    alistGet (alistDelete m k) k = none := by
  induction m with
  | nil => simp [alistDelete, alistGet]
  | cons e rest ih =>
      by_cases h : e.1 = k
      · simpa [alistDelete, h] using ih
      · simpa [alistDelete, alistGet, h] using ih

theorem alistGet_delete_ne {α : Type} (m : AList α) (k q : String) (h : q ≠ k) :
    alistGet (alistDelete m k) q = alistGet m q := by
  induction m with
  | nil => simp [alistDelete]
  | cons e rest ih =>
      by_cases he : e.1 = k
      · subst he
        have hq : e.1 ≠ q := Ne.symm h
        simpa [alistDelete, alistGet, hq] using ih
      · by_cases hq : e.1 = q
        · simp [alistDelete, alistGet, List.filter_cons, he, hq, h]
        · simpa [alistDelete, alistGet, List.filter_cons, he, hq] using ih

theorem alistSet_set {α : Type} (m : AList α) (k : String) (v w : α) :
    alistSet (alistSet m k v) k w = alistSet m k w := by
  induction m with
  | nil => simp [alistSet]
  | cons e rest ih =>
      by_cases h : e.1 = k
      · simp [alistSet, h]
      · simp [alistSet, h, ih]

theorem alistDelete_set {α : Type} (m : AList α) (k : String) (v : α) :
    alistDelete (alistSet m k v) k = alistDelete m k := by
  induction m with
  | nil => simp [alistSet, alistDelete]
  | cons e rest ih =>
      simp only [alistDelete, ne_eq, decide_not] at ih ⊢
      by_cases h : e.1 = k
      · simp [alistSet, h, List.filter_cons]
      · simp [alistSet, h, List.filter_cons, ih]

theorem alistDelete_not_mem {α : Type} (m : AList α) (k : String)
    (h : k ∉ m.map Prod.fst) : alistDelete m k = m := by
  apply List.filter_eq_self.mpr
  intro a ha
  have hmem : a.1 ∈ m.map Prod.fst := List.mem_map_of_mem Prod.fst ha
  have hne : a.1 ≠ k := fun hk => h (hk ▸ hmem)
  simp [hne]

theorem alistGet_append_left {α : Type} (l1 l2 : AList α) (k : String)
    (h : k ∉ l1.map Prod.fst) : alistGet (l1 ++ l2) k = alistGet l2 k := by
  induction l1 with
  | nil => rfl
  | cons e rest ih =>
      simp only [List.map_cons, List.mem_cons] at h
      push_neg at h
      have he : e.1 ≠ k := Ne.symm h.1
      simpa [alistGet, he] using ih h.2

/-! ### Helper lemmas about scope canonicalization -/

theorem sortScopes_perm (s : List String) : (sortScopes s).Perm s :=
  List.perm_insertionSort scopeLe s

theorem sortScopes_congr (s1 s2 : List String) (h : s1.Perm s2) :
    sortScopes s1 = sortScopes s2 :=
  List.eq_of_perm_of_sorted (r := scopeLe)
    ((sortScopes_perm s1).trans (h.trans (sortScopes_perm s2).symm))
    (List.sorted_insertionSort scopeLe s1)
    (List.sorted_insertionSort scopeLe s2)

/-! ### Helper lemmas about the reconciliation loop -/

open AuthenticationServiceImpl

theorem mkItems_nonEmpty_step (items0 : AList SessionRequestInfo) (pid : String)
    (reqsOld reqsNew : SessionRequestInfo) (changed : Bool)
    (hne : reqsOld.isEmpty = false) :
    (if reqsNew.isEmpty then alistDelete (mkItems items0 pid reqsOld changed) pid
     else alistSet (mkItems items0 pid reqsOld changed) pid reqsNew) =
    mkItems items0 pid reqsNew true := by
  cases changed with
  | false => simp [mkItems]
  | true =>
      simp only [mkItems, hne, if_true, if_false]
      by_cases h : reqsNew.isEmpty
      all_goals simp [h, hne, alistDelete_set, alistSet_set]

theorem reconcileLoop_spec (pid : String) (sessions : List AuthenticationSession)
    (items0 : AList SessionRequestInfo) :
    ∀ (cur processed : SessionRequestInfo) (changed : Bool) (eff : List HostEffect),
      ((processed ++ cur).map Prod.fst).Nodup →
      (∀ e ∈ processed, sessionMatches sessions e.1 = false) →
      reconcileLoop pid sessions (cur.map Prod.fst) (processed ++ cur)
          (mkItems items0 pid (processed ++ cur) changed) changed eff =
        (processed ++ cur.filter (fun e => !sessionMatches sessions e.1),
         mkItems items0 pid
           (processed ++ cur.filter (fun e => !sessionMatches sessions e.1))
           (changed || cur.any (fun e => sessionMatches sessions e.1)),
         changed || cur.any (fun e => sessionMatches sessions e.1),
         eff ++ disposalTrace (cur.filter (fun e => sessionMatches sessions e.1))) := by
  intro cur
  induction cur with
  | nil =>
      intro processed changed eff hnd hpu
      simp [reconcileLoop, disposalTrace]
  | cons e rest ih =>
      intro processed changed eff hnd hpu
      have hnd' : (processed.map Prod.fst ++ e.1 :: rest.map Prod.fst).Nodup := by
        simpa using hnd
      have hmid : (e.1 :: (processed.map Prod.fst ++ rest.map Prod.fst)).Nodup :=
        List.nodup_middle.mp hnd'
      have hnotmem : e.1 ∉ processed.map Prod.fst ++ rest.map Prod.fst :=
        (List.nodup_cons.mp hmid).1
      have htail : (processed.map Prod.fst ++ rest.map Prod.fst).Nodup :=
        (List.nodup_cons.mp hmid).2
      have h1 : e.1 ∉ processed.map Prod.fst := fun hx =>
        hnotmem (List.mem_append.mpr (Or.inl hx))
      have h2 : e.1 ∉ rest.map Prod.fst := fun hx =>
        hnotmem (List.mem_append.mpr (Or.inr hx))
      simp only [List.map_cons, reconcileLoop]
      cases hm : sessionMatches sessions e.1 with
      | true =>
          simp only [if_true]
          have hget : alistGet (processed ++ e :: rest) e.1 = some e.2 := by
            rw [alistGet_append_left processed (e :: rest) e.1 h1]
            simp [alistGet]
          have hdel : alistDelete (processed ++ e :: rest) e.1 = processed ++ rest := by
            have h1' := alistDelete_not_mem processed e.1 h1
            have h2' := alistDelete_not_mem rest e.1 h2
            simp only [alistDelete, ne_eq, decide_not] at h1' h2' ⊢
            simp [List.filter_append, List.filter_cons, h1', h2']
          have hne : (processed ++ e :: rest).isEmpty = false := by
            cases processed <;> rfl
          rw [hget, hdel, mkItems_nonEmpty_step items0 pid _ _ changed hne]
          have ihx := ih processed true (eff ++ e.2.disposables.map HostEffect.disposedHandle)
            (by simpa using htail) hpu
          rw [ihx]
          simp [hm, List.filter_cons, disposalTrace, hm]
      | false =>
          rw [if_neg Bool.false_ne_true]
          have hassoc : processed ++ e :: rest = (processed ++ [e]) ++ rest := by simp
          have hpu' : ∀ x ∈ processed ++ [e], sessionMatches sessions x.1 = false := by
            intro x hx
            rcases List.mem_append.mp hx with hx | hx
            · exact hpu x hx
            · rcases List.mem_singleton.mp hx with rfl
              exact hm
          have ihx := ih (processed ++ [e]) changed eff
            (by rw [← hassoc]; exact hnd) hpu'
          rw [hassoc, ihx]
          simp [List.filter_cons, List.any_cons, hm, disposalTrace]

theorem updateNewSessionRequests_spec (st : AuthenticationServiceImpl)
    (provider : AuthenticationProvider) (reqs : SessionRequestInfo)
    (hreq : alistGet st.signInRequestItems provider.id = some reqs)
    (hnd : (reqs.map Prod.fst).Nodup) :
    AuthenticationServiceImpl.updateNewSessionRequests st provider =
      (let keep := reqs.filter (fun e => !sessionMatches provider.sessions e.1)
       let anyM := reqs.any (fun e => sessionMatches provider.sessions e.1)
       let items2 := mkItems st.signInRequestItems provider.id keep anyM
       ({ st with
          signInRequestItems := items2,
          badgeDisposable :=
            if anyM && items2.isEmpty then none else st.badgeDisposable },
        disposalTrace (reqs.filter (fun e => sessionMatches provider.sessions e.1))
          ++ (if anyM && items2.isEmpty then
                st.badgeDisposable.toList.map HostEffect.disposedHandle
              else []))) := by
  unfold AuthenticationServiceImpl.updateNewSessionRequests
  simp only [hreq]
  have hloop := reconcileLoop_spec provider.id provider.sessions st.signInRequestItems
    reqs [] false [] (by simpa using hnd) (by intro e he; cases he)
  simp only [List.nil_append, List.append_nil] at hloop
  have hinit : mkItems st.signInRequestItems provider.id reqs false =
      st.signInRequestItems := rfl
  rw [hinit] at hloop
  rw [hloop]
  simp only [Bool.false_or, List.nil_append]
  cases hany : reqs.any (fun e => sessionMatches provider.sessions e.1) with
  | false =>
      have hall : ∀ x ∈ reqs, sessionMatches provider.sessions x.1 = false := by
        simp at hany
        intro x hx
        exact hany x.1 x.2 hx
      have hkeep : reqs.filter (fun e => !sessionMatches provider.sessions e.1) = reqs := by
        apply List.filter_eq_self.mpr
        intro a ha
        simp [hall a ha]
      simp [mkItems, hkeep]
  | true =>
      by_cases hemp :
          (if (reqs.filter (fun e => !sessionMatches provider.sessions e.1)).isEmpty then
            alistDelete st.signInRequestItems provider.id
          else alistSet st.signInRequestItems provider.id
            (reqs.filter (fun e => !sessionMatches provider.sessions e.1))).isEmpty
      · cases hb : st.badgeDisposable <;> simp [mkItems, hemp, hb]
      · simp [mkItems, hemp]

theorem alistGet_mkItems (items0 : AList SessionRequestInfo) (pid : String)
    (reqs : SessionRequestInfo) (changed : Bool) :
    alistGet (mkItems items0 pid reqs changed) pid =
      if changed then (if reqs.isEmpty then none else some reqs)
      else alistGet items0 pid := by
  cases changed with
  | false => simp [mkItems]
  | true =>
      by_cases h : reqs.isEmpty <;>
        simp [mkItems, h, alistGet_delete_self, alistGet_set_self]

theorem alistGet_mkItems_ne (items0 : AList SessionRequestInfo) (pid : String)
    (reqs : SessionRequestInfo) (changed : Bool) (q : String) (hq : q ≠ pid) :
    alistGet (mkItems items0 pid reqs changed) q = alistGet items0 q := by
  cases changed with
  | false => simp [mkItems]
  | true =>
      by_cases h : reqs.isEmpty <;>
        simp [mkItems, h, alistGet_delete_ne _ _ _ hq, alistGet_set_ne _ _ _ _ hq]

/-! ### Claim C1 -/

/-- Claim C1 counterexample: on the browser-side service
(`AuthenticationServiceImpl.registerAuthenticationProvider`, one of the two
code places the claim cites), registering a second provider under an
already-registered id does not fail — the function cannot fail at all — and
the originally registered provider (display name `A`) does not remain: the
stored provider afterwards is the second one (display name `B`), and a
registration event is emitted for the duplicate registration. -/
theorem C1_counterexample :
    (alistGet hostStateWithA.authenticationProviders "p").map
        (fun p => p.displayName) = some "A"
    ∧ (alistGet (AuthenticationServiceImpl.registerAuthenticationProvider hostStateWithA "p"
        (sampleHostProvider "p" "B" [])).1.authenticationProviders "p").map
        (fun p => p.displayName) = some "B"
    ∧ (AuthenticationServiceImpl.registerAuthenticationProvider hostStateWithA "p"
        (sampleHostProvider "p" "B" [])).2 = [HostEffect.firedDidRegister "p"] := by
  constructor
  · rfl
  · constructor <;> rfl

/-- Claim C1 (amended): on the plugin side
(`AuthenticationExtImpl.registerAuthenticationProvider`), registering a
second provider under an already-registered id fails with the duplicate
provider error and — since the error is thrown before any mutation — the
originally registered provider remains; registering a fresh id stores the
provider and notifies the main side (the registration event).  On the
browser side (`AuthenticationServiceImpl.registerAuthenticationProvider`)
there is no duplicate check: registration always stores the given provider,
overwriting any existing binding, and emits a registration event. -/
theorem C1_register_amended :
    (∀ (st : AuthenticationExtImpl) (p q : ExtAuthenticationProvider),
      alistGet st.authenticationProviders p.id = some q →
      AuthenticationExtImpl.registerAuthenticationProvider st p =
        Except.error (AuthenticationExtImpl.dupProviderMsg p.id))
    ∧ (∀ (st : AuthenticationExtImpl) (p : ExtAuthenticationProvider),
      alistGet st.authenticationProviders p.id = none →
      AuthenticationExtImpl.registerAuthenticationProvider st p =
        Except.ok
          ({ st with authenticationProviders :=
              alistSet st.authenticationProviders p.id p },
           [AuthenticationExtImpl.ExtEffect.registeredWithMain p.id p.displayName
              p.supportsMultipleAccounts]))
    ∧ (∀ (st : AuthenticationServiceImpl) (id : String) (p : AuthenticationProvider),
      st.placeholderMenuItem = none →
      st.noAccountsMenuItem = none →
      AuthenticationServiceImpl.registerAuthenticationProvider st id p =
        ({ st with authenticationProviders := alistSet st.authenticationProviders id p },
         [HostEffect.firedDidRegister id])) := by
  refine ⟨fun st p q h => ?_, fun st p h => ?_, fun st id p hplace hmenu => ?_⟩
  · simp [AuthenticationExtImpl.registerAuthenticationProvider, h]
  · simp [AuthenticationExtImpl.registerAuthenticationProvider, h]
  · simp [AuthenticationServiceImpl.registerAuthenticationProvider,
      AuthenticationServiceImpl.updateAccountsMenuItem, hplace, hmenu]

/-- Claim C1 witness: the amended statement evaluated on concrete states —
a duplicate plugin-side registration fails and a fresh plugin-side
registration stores the provider, notifying the main side. -/
theorem C1_register_amended_witness :
    AuthenticationExtImpl.registerAuthenticationProvider extStateWithA
        (sampleExtProvider "p" "B" []) =
      Except.error (AuthenticationExtImpl.dupProviderMsg "p")
    ∧ AuthenticationExtImpl.registerAuthenticationProvider
        { authenticationProviders := [] } (sampleExtProvider "p" "A" []) =
      Except.ok (extStateWithA,
        [AuthenticationExtImpl.ExtEffect.registeredWithMain "p" "A" false])
    ∧ AuthenticationServiceImpl.registerAuthenticationProvider emptyHostState "p"
        (sampleHostProvider "p" "A" []) =
      (hostStateWithA, [HostEffect.firedDidRegister "p"]) :=
  ⟨C1_register_amended.1 extStateWithA (sampleExtProvider "p" "B" [])
      (sampleExtProvider "p" "A" []) rfl,
   C1_register_amended.2.1 { authenticationProviders := [] }
      (sampleExtProvider "p" "A" []) rfl,
   C1_register_amended.2.2 emptyHostState "p" (sampleHostProvider "p" "A" []) rfl rfl⟩

/-! ### Claim C2 -/

/-- Claim C2 (code bug): `requestNewSession` of the browser-side service
never creates or extends a Session Request entry — every branch returns the
state unchanged, because the code that would insert into
`_signInRequestItems` (together with the menu item, sign-in command and
badge update) is commented out in the source, while the dedup check that
reads the never-written map remains.  In particular, at the failing input —
provider `p` registered, no pending requests, requester `e1` — no entry for
the canonical key of `[a]` is created, contradicting the claimed
create-or-extend behaviour. -/
theorem C2_requestNewSession_never_records :
    (∀ (st : AuthenticationServiceImpl) (providerId : String) (scopes : List String)
      (extensionId extensionName : String),
      AuthenticationServiceImpl.requestNewSession st providerId scopes
        extensionId extensionName = st)
    ∧ (AuthenticationServiceImpl.requestNewSession hostStateWithA "p" ["a"]
        "e1" "Ext1").signInRequestItems = [] := by
  constructor
  · intro st providerId scopes extensionId extensionName
    unfold AuthenticationServiceImpl.requestNewSession
    rcases alistGet st.authenticationProviders providerId with _ | p
    · rfl
    · simp only
      split <;> rfl
  · rfl

/-! ### Claim C10 -/

/-- Claim C10: calling `requestNewSession` with an unregistered provider id
returns without any error (the function is total) and leaves the service
state — the sign-in request map, the provider registry and every other
field — exactly as before the call. -/
theorem C10_requestNewSession_frame (st : AuthenticationServiceImpl)
    (providerId : String) (scopes : List String) (extensionId extensionName : String)
    (h : alistGet st.authenticationProviders providerId = none) :
    AuthenticationServiceImpl.requestNewSession st providerId scopes
      extensionId extensionName = st := by
  unfold AuthenticationServiceImpl.requestNewSession
  rw [h]

/-- Claim C10 witness: the frame property evaluated on a concrete state with
an unregistered id. -/
theorem C10_requestNewSession_frame_witness :
    AuthenticationServiceImpl.requestNewSession hostStateWithA "q" ["a"] "e1" "Ext1" =
      hostStateWithA :=
  C10_requestNewSession_frame hostStateWithA "q" ["a"] "e1" "Ext1" rfl

/-! ### Claim C8 -/

/-- Claim C8: for scope lists that are permutations of each other, the
canonical scope keys agree, both for the browser-side canonicalization
(`scopes.sort().join('')`) and for the plugin-side one
(`scopes.sort().join(' ')`): sorting maps both lists to the same sorted
list, so the joined keys coincide. -/
theorem C8_scope_key_permutation (s1 s2 : List String) (h : s1.Perm s2) :
    hostScopeKey s1 = hostScopeKey s2 ∧ extScopeKey s1 = extScopeKey s2 := by
  constructor <;>
    simp [hostScopeKey, extScopeKey, jsSortJoin, sortScopes_congr s1 s2 h]

/-- Claim C8 witness: the permutation invariance evaluated on the concrete
permutation pair `[repo, user]` and `[user, repo]`. -/
theorem C8_scope_key_permutation_witness :
    (["repo", "user"].Perm ["user", "repo"])
    ∧ hostScopeKey ["repo", "user"] = hostScopeKey ["user", "repo"]
    ∧ extScopeKey ["repo", "user"] = extScopeKey ["user", "repo"] :=
  ⟨by decide,
   (C8_scope_key_permutation ["repo", "user"] ["user", "repo"] (by decide)).1,
   (C8_scope_key_permutation ["repo", "user"] ["user", "repo"] (by decide)).2⟩

/-! ### Claim C9 -/

/-- Claim C9 counterexample: equal canonical keys do not imply equivalent
scope sets.  On the browser side the scope lists `[ab]` and `[a, b]` are
not permutations of each other but share the canonical key `ab` (the join
uses no separator); on the plugin side the lists `[a b]` (one scope
containing a space) and `[a, b]` are not permutations of each other but
share the canonical key `a b`. -/
theorem C9_counterexample :
    hostScopeKey ["ab"] = hostScopeKey ["a", "b"]
    ∧ ¬ (["ab"].Perm ["a", "b"])
    ∧ extScopeKey ["a b"] = extScopeKey ["a", "b"]
    ∧ ¬ (["a b"].Perm ["a", "b"]) := by
  refine ⟨by decide, by decide, by decide, by decide⟩

/-- Claim C9 (amended): equivalent (permuted) scope lists always get equal
canonical keys, on both sides; but the converse direction fails — the
canonical key is not injective on non-equivalent scope sets, since the
concatenating joins can merge distinct scope boundaries (browser-side
`[ab]` versus `[a, b]`, plugin-side `[a b]` versus `[a, b]`). -/
theorem C9_scope_key_amended :
    (∀ s1 s2 : List String, s1.Perm s2 →
      hostScopeKey s1 = hostScopeKey s2 ∧ extScopeKey s1 = extScopeKey s2)
    ∧ (hostScopeKey ["ab"] = hostScopeKey ["a", "b"] ∧ ¬ (["ab"].Perm ["a", "b"]))
    ∧ (extScopeKey ["a b"] = extScopeKey ["a", "b"] ∧ ¬ (["a b"].Perm ["a", "b"])) := by
  refine ⟨fun s1 s2 h => ?_, ⟨by decide, by decide⟩, ⟨by decide, by decide⟩⟩
  constructor <;>
    simp [hostScopeKey, extScopeKey, jsSortJoin, sortScopes_congr s1 s2 h]

/-- Claim C9 witness: the amended statement evaluated at the permutation
pair `[b, a]`, `[a, b]`. -/
theorem C9_scope_key_amended_witness :
    (["b", "a"].Perm ["a", "b"])
    ∧ hostScopeKey ["b", "a"] = hostScopeKey ["a", "b"]
    ∧ extScopeKey ["b", "a"] = extScopeKey ["a", "b"] :=
  ⟨by decide,
   (C9_scope_key_amended.1 ["b", "a"] ["a", "b"] (by decide)).1,
   (C9_scope_key_amended.1 ["b", "a"] ["a", "b"] (by decide)).2⟩

/-! ### Claim C3 -/

/-- Claim C3 counterexample: unregistering provider `p`, which has two
outstanding sign-in requests (handles 1, 2 and 3), leaves both entries in
the coordinator's map untouched and disposes none of their handles — the
only effects are the provider disposal and the unregistration event.  The
source's `unregisterAuthenticationProvider` never touches
`_signInRequestItems`. -/
theorem C3_counterexample :
    (AuthenticationServiceImpl.unregisterAuthenticationProvider
        hostStateTwoRequests "p").1.signInRequestItems = [("p", twoRequestsInfo)]
    ∧ (AuthenticationServiceImpl.unregisterAuthenticationProvider
        hostStateTwoRequests "p").2 =
      [HostEffect.disposedProvider "p", HostEffect.firedDidUnregister "p"] := by
  constructor <;> rfl

/-- Claim C3 (amended): unregistering a registered provider disposes the
provider, removes it from the registry and emits an unregistration event —
but the coordinator's sign-in request map and the badge handle are left
exactly as they were, and no pending request's UI handles are disposed
(the effect trace contains nothing besides the provider disposal and the
unregistration event). -/
theorem C3_unregister_amended (st : AuthenticationServiceImpl) (id : String)
    (p : AuthenticationProvider)
    (hprov : alistGet st.authenticationProviders id = some p)
    (hmenu : st.noAccountsMenuItem = none) :
    (AuthenticationServiceImpl.unregisterAuthenticationProvider st id).1.signInRequestItems
      = st.signInRequestItems
    ∧ (AuthenticationServiceImpl.unregisterAuthenticationProvider st id).1.badgeDisposable
      = st.badgeDisposable
    ∧ alistGet (AuthenticationServiceImpl.unregisterAuthenticationProvider
        st id).1.authenticationProviders id = none
    ∧ (∀ q, q ≠ id →
        alistGet (AuthenticationServiceImpl.unregisterAuthenticationProvider
          st id).1.authenticationProviders q = alistGet st.authenticationProviders q)
    ∧ (AuthenticationServiceImpl.unregisterAuthenticationProvider st id).2
      = [HostEffect.disposedProvider id, HostEffect.firedDidUnregister id] := by
  have hres : AuthenticationServiceImpl.unregisterAuthenticationProvider st id =
      ({ st with authenticationProviders := alistDelete st.authenticationProviders id },
       [HostEffect.disposedProvider id, HostEffect.firedDidUnregister id]) := by
    unfold AuthenticationServiceImpl.unregisterAuthenticationProvider
    simp [hprov, AuthenticationServiceImpl.updateAccountsMenuItem, hmenu]
  rw [hres]
  exact ⟨rfl, rfl, alistGet_delete_self _ _,
    fun q hq => alistGet_delete_ne _ _ _ hq, rfl⟩

/-- Claim C3 witness: the amended statement evaluated on the concrete state
with two outstanding requests. -/
theorem C3_unregister_amended_witness :
    (AuthenticationServiceImpl.unregisterAuthenticationProvider
        hostStateTwoRequests "p").1.signInRequestItems
      = hostStateTwoRequests.signInRequestItems
    ∧ alistGet (AuthenticationServiceImpl.unregisterAuthenticationProvider
        hostStateTwoRequests "p").1.authenticationProviders "p" = none :=
  ⟨(C3_unregister_amended hostStateTwoRequests "p" (sampleHostProvider "p" "A" [])
      rfl rfl).1,
   (C3_unregister_amended hostStateTwoRequests "p" (sampleHostProvider "p" "A" [])
      rfl rfl).2.2.1⟩

/-! ### Claim C4 -/

/-- Claim C4 counterexample: the change event reports no added session at
all (`added = []` — still an array, hence truthy in the source's
`if (event.added)` guard), so no session is implied by the added list; yet
reconciliation removes the pending request keyed `a` and disposes its
handle 7, because the match is computed against all sessions currently
returned by `provider.getSessions()`, not against the sessions implied by
`added`.  The badge handle 9 is disposed as the map becomes empty. -/
theorem C4_counterexample :
    (AuthenticationServiceImpl.sessionsUpdate hostStatePendingA "p"
        { added := [], removed := [], changed := [] }).1.signInRequestItems = []
    ∧ (AuthenticationServiceImpl.sessionsUpdate hostStatePendingA "p"
        { added := [], removed := [], changed := [] }).2 =
      [HostEffect.firedDidChangeSessions "p" { added := [], removed := [], changed := [] },
       HostEffect.calledUpdateSessionItems "p" { added := [], removed := [], changed := [] },
       HostEffect.disposedHandle 7, HostEffect.disposedHandle 9] := by
  constructor <;> rfl

/-- Claim C4 (amended): on a session-change event for a registered provider,
reconciliation removes exactly those pending requests of that provider
whose canonical scope key equals the canonical scopes of at least one
session currently reported by the provider — the content of the event's
`added` list is not consulted (any event triggers the sweep).  Each removed
request's handles are disposed exactly once (the disposal trace is the
concatenation of the removed entries' handle lists), surviving entries are
kept, other providers' entries are untouched, and when the sweep empties
the whole request map the aggregate badge is cleared and its handle
disposed. -/
theorem C4_reconcile_amended (st : AuthenticationServiceImpl) (pid : String)
    (provider : AuthenticationProvider) (event : AuthenticationSessionsChangeEvent)
    (reqs : SessionRequestInfo)
    (hprov : alistGet st.authenticationProviders pid = some provider)
    (hid : provider.id = pid)
    (hreq : alistGet st.signInRequestItems pid = some reqs)
    (hnd : (reqs.map Prod.fst).Nodup)
    (hmenu : st.noAccountsMenuItem = none) :
    (AuthenticationServiceImpl.sessionsUpdate st pid event =
      (let keep := reqs.filter (fun e => !sessionMatches provider.sessions e.1)
       let anyM := reqs.any (fun e => sessionMatches provider.sessions e.1)
       let items2 := mkItems st.signInRequestItems pid keep anyM
       ({ st with
          signInRequestItems := items2,
          badgeDisposable :=
            if anyM && items2.isEmpty then none else st.badgeDisposable },
        [HostEffect.firedDidChangeSessions pid event,
         HostEffect.calledUpdateSessionItems pid event]
          ++ disposalTrace (reqs.filter (fun e => sessionMatches provider.sessions e.1))
          ++ (if anyM && items2.isEmpty then
                st.badgeDisposable.toList.map HostEffect.disposedHandle
              else []))))
    ∧ (alistGet (AuthenticationServiceImpl.sessionsUpdate st pid event).1.signInRequestItems pid
        = if reqs.any (fun e => sessionMatches provider.sessions e.1) then
            (if (reqs.filter (fun e => !sessionMatches provider.sessions e.1)).isEmpty
             then none
             else some (reqs.filter (fun e => !sessionMatches provider.sessions e.1)))
          else some reqs)
    ∧ (∀ q, q ≠ pid →
        alistGet (AuthenticationServiceImpl.sessionsUpdate st pid event).1.signInRequestItems q
          = alistGet st.signInRequestItems q) := by
  have hreq' : alistGet st.signInRequestItems provider.id = some reqs := by rwa [hid]
  have hupd := updateNewSessionRequests_spec st provider reqs hreq' hnd
  have hmenuEq : AuthenticationServiceImpl.updateAccountsMenuItem st = (st, []) := by
    simp [AuthenticationServiceImpl.updateAccountsMenuItem, hmenu]
  have hA : AuthenticationServiceImpl.sessionsUpdate st pid event =
      (let keep := reqs.filter (fun e => !sessionMatches provider.sessions e.1)
       let anyM := reqs.any (fun e => sessionMatches provider.sessions e.1)
       let items2 := mkItems st.signInRequestItems pid keep anyM
       ({ st with
          signInRequestItems := items2,
          badgeDisposable :=
            if anyM && items2.isEmpty then none else st.badgeDisposable },
        [HostEffect.firedDidChangeSessions pid event,
         HostEffect.calledUpdateSessionItems pid event]
          ++ disposalTrace (reqs.filter (fun e => sessionMatches provider.sessions e.1))
          ++ (if anyM && items2.isEmpty then
                st.badgeDisposable.toList.map HostEffect.disposedHandle
              else []))) := by
    unfold AuthenticationServiceImpl.sessionsUpdate
    simp only [hprov, hmenuEq, hupd, hid]
    simp
  refine ⟨hA, ?_, ?_⟩
  · rw [hA]
    simp only [alistGet_mkItems]
    cases hany : reqs.any (fun e => sessionMatches provider.sessions e.1) with
    | false => simp [hreq]
    | true => simp
  · intro q hq
    rw [hA]
    simp only
    exact alistGet_mkItems_ne _ _ _ _ _ hq

/-- Claim C4 witness: the amended reconciliation statement evaluated on the
concrete pending-request state, with an event whose added list names the
matching session. -/
theorem C4_reconcile_amended_witness :
    alistGet (AuthenticationServiceImpl.sessionsUpdate hostStatePendingA "p"
        { added := ["s1"], removed := [], changed := [] }).1.signInRequestItems "p"
      = none := by
  have h := (C4_reconcile_amended hostStatePendingA "p"
      (sampleHostProvider "p" "A" [sampleSession "s1" ["a"]])
      { added := ["s1"], removed := [], changed := [] }
      [("a", { disposables := [7], requestingExtensionIds := ["e1"] })]
      rfl rfl rfl (by decide) rfl).2.1
  simpa using h

/-! ### Claim C5 -/

/-- Claim C5: `getSession` on a locally registered provider with no session
whose canonical scopes match the requested ones, called with
`createIfNone = false`, returns no session and no error, and forwards
exactly one pending request for the provider, the (sorted) scopes and the
requester to the sign-in request coordinator via `$requestNewSession`
(`scopes.sort()` sorts the caller's array in place before the forwarding,
and the sorted list is a permutation of the requested scopes). -/
theorem C5_getSession_forwards_request
    (st : AuthenticationExtImpl) (behavior : MainProxyBehavior)
    (requestingExtension : PluginModel) (providerId : String) (scopes : List String)
    (options : AuthenticationGetSessionOptions) (provider : ExtAuthenticationProvider)
    (hprov : alistGet st.authenticationProviders providerId = some provider)
    (hnomatch : provider.sessions.filter
      (fun s => extScopeKey s.scopes = extScopeKey scopes) = [])
    (hcreate : options.createIfNone = false) :
    AuthenticationExtImpl.getSession st behavior requestingExtension providerId
        scopes options =
      (Except.ok none,
       [ProxyCall.requestNewSession providerId (sortScopes scopes)
          (jsToLowerCase requestingExtension.id)
          (pluginExtensionName requestingExtension)])
    ∧ (sortScopes scopes).Perm scopes := by
  refine ⟨?_, sortScopes_perm scopes⟩
  unfold AuthenticationExtImpl.getSession
  rw [hprov]
  simp only [extScopeKey, jsSortJoin] at hnomatch
  simp [extScopeKey, jsSortJoin, hnomatch, hcreate]

/-- Claim C5 witness: the forwarding behaviour evaluated on a concrete
registry whose provider `p` has no sessions. -/
theorem C5_getSession_forwards_request_witness :
    AuthenticationExtImpl.getSession extStateWithA (sampleBehavior true true [])
        samplePlugin "p" ["a"]
        { createIfNone := false, clearSessionPreference := false } =
      (Except.ok none,
       [ProxyCall.requestNewSession "p" (sortScopes ["a"])
          (jsToLowerCase samplePlugin.id) (pluginExtensionName samplePlugin)])
    ∧ (sortScopes ["a"]).Perm ["a"] :=
  C5_getSession_forwards_request extStateWithA (sampleBehavior true true [])
    samplePlugin "p" ["a"] { createIfNone := false, clearSessionPreference := false }
    (sampleExtProvider "p" "A" []) rfl rfl rfl

/-! ### Claim C6 -/

/-- Claim C6: whenever the user declines the consent prompt, `getSession`
fails with the consent-denied error and never invokes the provider's
`login`.  First part: a matching session exists on a single-account
provider and the reuse prompt (`$getSessionsPrompt`) is declined.  Second
part: no session matches, `createIfNone` is true, and the login prompt
(`$loginPrompt`) is declined.  In both parts the call trace contains no
`providerLogin` entry. -/
theorem C6_consent_denied :
    (∀ (st : AuthenticationExtImpl) (behavior : MainProxyBehavior)
       (re : PluginModel) (providerId : String) (scopes : List String)
       (options : AuthenticationGetSessionOptions)
       (provider : ExtAuthenticationProvider)
       (session : AuthenticationSession) (rest : List AuthenticationSession),
      alistGet st.authenticationProviders providerId = some provider →
      provider.sessions.filter
        (fun s => extScopeKey s.scopes = extScopeKey scopes) = session :: rest →
      provider.supportsMultipleAccounts = false →
      behavior.getSessionsPromptResult = false →
      (AuthenticationExtImpl.getSession st behavior re providerId scopes options).1 =
        Except.error consentErrorMsg
      ∧ ∀ sc, ProxyCall.providerLogin sc ∉
          (AuthenticationExtImpl.getSession st behavior re providerId scopes options).2)
    ∧ (∀ (st : AuthenticationExtImpl) (behavior : MainProxyBehavior)
       (re : PluginModel) (providerId : String) (scopes : List String)
       (options : AuthenticationGetSessionOptions)
       (provider : ExtAuthenticationProvider),
      alistGet st.authenticationProviders providerId = some provider →
      provider.sessions.filter
        (fun s => extScopeKey s.scopes = extScopeKey scopes) = [] →
      options.createIfNone = true →
      behavior.loginPromptResult = false →
      (AuthenticationExtImpl.getSession st behavior re providerId scopes options).1 =
        Except.error consentErrorMsg
      ∧ ∀ sc, ProxyCall.providerLogin sc ∉
          (AuthenticationExtImpl.getSession st behavior re providerId scopes options).2) := by
  constructor
  · intro st behavior re providerId scopes options provider session rest
      hprov hmatch hsingle hdeny
    unfold AuthenticationExtImpl.getSession
    rw [hprov]
    simp only [extScopeKey, jsSortJoin] at hmatch
    simp [extScopeKey, jsSortJoin, hmatch, hsingle, hdeny]
  · intro st behavior re providerId scopes options provider hprov hnomatch hcreate hdeny
    unfold AuthenticationExtImpl.getSession
    rw [hprov]
    simp only [extScopeKey, jsSortJoin] at hnomatch
    simp [extScopeKey, jsSortJoin, hnomatch, hcreate, hdeny]

/-- Claim C6 witness: both consent-denial scenarios evaluated on concrete
states — a declined reuse prompt over an existing `[repo]` session, and a
declined login prompt with `createIfNone` set. -/
theorem C6_consent_denied_witness :
    ((AuthenticationExtImpl.getSession extStateWithSession
        (sampleBehavior false true []) samplePlugin "p" ["repo"]
        { createIfNone := true, clearSessionPreference := false }).1 =
      Except.error consentErrorMsg)
    ∧ (ProxyCall.providerLogin ["repo"] ∉
        (AuthenticationExtImpl.getSession extStateWithSession
          (sampleBehavior false true []) samplePlugin "p" ["repo"]
          { createIfNone := true, clearSessionPreference := false }).2)
    ∧ ((AuthenticationExtImpl.getSession extStateWithA
        (sampleBehavior true false []) samplePlugin "p" ["repo"]
        { createIfNone := true, clearSessionPreference := false }).1 =
      Except.error consentErrorMsg)
    ∧ (ProxyCall.providerLogin ["repo"] ∉
        (AuthenticationExtImpl.getSession extStateWithA
          (sampleBehavior true false []) samplePlugin "p" ["repo"]
          { createIfNone := true, clearSessionPreference := false }).2) :=
  ⟨(C6_consent_denied.1 extStateWithSession (sampleBehavior false true [])
      samplePlugin "p" ["repo"] { createIfNone := true, clearSessionPreference := false }
      (sampleExtProvider "p" "A" [sampleSession "s1" ["repo"]])
      (sampleSession "s1" ["repo"]) [] rfl rfl rfl rfl).1,
   (C6_consent_denied.1 extStateWithSession (sampleBehavior false true [])
      samplePlugin "p" ["repo"] { createIfNone := true, clearSessionPreference := false }
      (sampleExtProvider "p" "A" [sampleSession "s1" ["repo"]])
      (sampleSession "s1" ["repo"]) [] rfl rfl rfl rfl).2 ["repo"],
   (C6_consent_denied.2 extStateWithA (sampleBehavior true false [])
      samplePlugin "p" ["repo"] { createIfNone := true, clearSessionPreference := false }
      (sampleExtProvider "p" "A" []) rfl rfl rfl rfl).1,
   (C6_consent_denied.2 extStateWithA (sampleBehavior true false [])
      samplePlugin "p" ["repo"] { createIfNone := true, clearSessionPreference := false }
      (sampleExtProvider "p" "A" []) rfl rfl rfl rfl).2 ["repo"]⟩

/-! ### Claim C7 -/

/-- Claim C7: every per-id operation on an unregistered provider id fails
with the unknown-provider error: the six browser-side service operations
(`getDisplayName`, `supportsMultipleAccounts`, `getSessions`, `login`,
`logout`, `signOutOfAccount`) throw it directly, and the plugin-side
`getSession` — whose local lookup misses and therefore delegates to the
main side, whose handler is modelled from the spec — propagates the same
failure when the id is registered nowhere. -/
theorem C7_unknown_provider :
    (∀ (st : AuthenticationServiceImpl) (id : String) (scopes : List String)
       (sessionId accountName : String),
      alistGet st.authenticationProviders id = none →
      AuthenticationServiceImpl.getDisplayName st id =
        Except.error (AuthenticationServiceImpl.noProviderMsg id)
      ∧ AuthenticationServiceImpl.supportsMultipleAccountsOf st id =
        Except.error (AuthenticationServiceImpl.noProviderMsg id)
      ∧ AuthenticationServiceImpl.getSessions st id =
        Except.error (AuthenticationServiceImpl.noProviderMsg id)
      ∧ AuthenticationServiceImpl.login st id scopes =
        Except.error (AuthenticationServiceImpl.noProviderMsg id)
      ∧ AuthenticationServiceImpl.logout st id sessionId =
        Except.error (AuthenticationServiceImpl.noProviderMsg id)
      ∧ AuthenticationServiceImpl.signOutOfAccount st id accountName =
        Except.error (AuthenticationServiceImpl.noProviderMsg id))
    ∧ (∀ (st : AuthenticationExtImpl) (behavior : MainProxyBehavior)
       (re : PluginModel) (providerId : String) (scopes : List String)
       (options : AuthenticationGetSessionOptions),
      alistGet st.authenticationProviders providerId = none →
      providerId ∉ behavior.mainProviderIds →
      (AuthenticationExtImpl.getSession st behavior re providerId scopes options).1 =
        Except.error (AuthenticationServiceImpl.noProviderMsg providerId)) := by
  constructor
  · intro st id scopes sessionId accountName h
    refine ⟨?_, ?_, ?_, ?_, ?_, ?_⟩ <;>
      simp [AuthenticationServiceImpl.getDisplayName,
        AuthenticationServiceImpl.supportsMultipleAccountsOf,
        AuthenticationServiceImpl.getSessions,
        AuthenticationServiceImpl.login,
        AuthenticationServiceImpl.logout,
        AuthenticationServiceImpl.signOutOfAccount, h]
  · intro st behavior re providerId scopes options hlocal hmain
    unfold AuthenticationExtImpl.getSession
    rw [hlocal]
    simp [mainGetSession, hmain]

/-- Claim C7 witness: the unknown-provider failures evaluated at the
concrete unregistered id `q`. -/
theorem C7_unknown_provider_witness :
    (AuthenticationServiceImpl.getDisplayName emptyHostState "q" =
      Except.error (AuthenticationServiceImpl.noProviderMsg "q"))
    ∧ ((AuthenticationExtImpl.getSession extStateWithA (sampleBehavior true true [])
        samplePlugin "q" ["a"] { createIfNone := true, clearSessionPreference := false }).1 =
      Except.error (AuthenticationServiceImpl.noProviderMsg "q")) :=
  ⟨(C7_unknown_provider.1 emptyHostState "q" ["a"] "s" "acct" rfl).1,
   C7_unknown_provider.2 extStateWithA (sampleBehavior true true []) samplePlugin
     "q" ["a"] { createIfNone := true, clearSessionPreference := false } rfl
     (by decide)⟩

end TheiaAuth
